import Mathlib

/-!
# Booking platform: request/error pipeline, demo seeder, bookings view

A shallow embedding of

* `backend/app.js` (middleware registration, resource-not-found middleware,
  Sequelize error middleware, error formatter),
* `backend/db/seeders/20220526172252-demo-user.js` (`up` / `down`),
* `frontend/src/components/Bookings/index.js` (the `Bookings` component),

followed by the properties established about them.
-/

namespace BookingApp

/-! ## JavaScript values -/

/-- JavaScript values as they occur in the error pipeline.  Numbers are the
integer-valued ones (HTTP statuses); functions and object identity are not
represented. -/
inductive JSVal where
  | undefined
  | null
  | bool (b : Bool)
  | num (n : Int)
  | str (s : String)
  | arr (xs : List JSVal)
  | obj (fields : List (String × JSVal))

namespace JSVal

/-- ToBoolean: the falsy values are undefined, null, false, 0 and the empty string. -/
def truthy : JSVal → Bool
  | undefined => false
  | null => false
  | bool b => b
  | num n => n != 0
  | str s => s != ""
  | arr _ => true
  | obj _ => true

/-- The value of `a || b`. -/
def or (a b : JSVal) : JSVal := if a.truthy then a else b

/-- The value of `a && b`. -/
def and (a b : JSVal) : JSVal := if a.truthy then b else a

/-- Whether a value is `undefined`. -/
def isUndefined : JSVal → Bool
  | undefined => true
  | _ => false

/-- Whether a value is a string. -/
def isString : JSVal → Bool
  | str _ => true
  | _ => false

/-- Whether a value is an array all of whose elements are strings. -/
def isStringArray : JSVal → Bool
  | arr xs => xs.all isString
  | _ => false

/-- Whether a value is `null`. -/
def isNull : JSVal → Bool
  | null => true
  | _ => false

end JSVal

/-- Own-property lookup in a property list; a missing key reads as `undefined`. -/
def lookupProp (k : String) : List (String × JSVal) → JSVal
  | [] => .undefined
  | (k', v) :: rest => if k' = k then v else lookupProp k rest

/-- Property assignment on a property list: overwrite in place, or append a
new own property. -/
def assignProp (k : String) (v : JSVal) : List (String × JSVal) → List (String × JSVal)
  | [] => [(k, v)]
  | (k', v') :: rest => if k' = k then (k', v) :: rest else (k', v') :: assignProp k v rest

/-- A value thrown by the runtime. -/
inductive JSThrow where
  | typeError (msg : String)
  deriving DecidableEq, Repr

/-- An error object travelling down the error-handling chain: whether
`err instanceof ValidationError` holds (the Sequelize class), and its
properties. -/
structure ErrObj where
  isValidationError : Bool
  props : List (String × JSVal)

namespace ErrObj

/-- Reading `err.k`. -/
def get (err : ErrObj) (k : String) : JSVal := lookupProp k err.props

/-- The object after `err.k = v`. -/
def set (err : ErrObj) (k : String) (v : JSVal) : ErrObj :=
  { err with props := assignProp k v err.props }

end ErrObj

/-- Reading `e.message` on an arbitrary value: throws on undefined and null,
reads the own property on an object, and is `undefined` on the other values. -/
def readMessage : JSVal → Except JSThrow JSVal
  | .undefined => .error (.typeError "Cannot read properties of undefined (reading message)")
  | .null => .error (.typeError "Cannot read properties of null (reading message)")
  | .obj fields => .ok (lookupProp "message" fields)
  | _ => .ok .undefined

/-- The loop of `Array.prototype.map` with a callback that may throw. -/
def arrayMap (f : JSVal → Except JSThrow JSVal) : List JSVal → Except JSThrow (List JSVal)
  | [] => .ok []
  | x :: xs =>
    match f x with
    | .error t => .error t
    | .ok y =>
      match arrayMap f xs with
      | .error t => .error t
      | .ok ys => .ok (y :: ys)

/-! ## backend/app.js -/

/-- Line 13: `const isProduction = environment === 'production'`.  The
`environment` value comes from the configuration module and is a parameter
here. -/
def isProduction (environment : JSVal) : Bool :=
  match environment with
  | .str s => s == "production"
  | _ => false

/-- The cookie options object handed to `csurf`. -/
structure CookieOptions where
  secure : JSVal
  sameSite : JSVal
  httpOnly : JSVal

/-- The stages registered on the application with `app.use`. -/
inductive Middleware where
  | morgan (format : String)
  | cookieParser
  | expressJson
  | cors
  | crossOriginResourcePolicy (policy : String)
  | csurf (cookie : CookieOptions)
  | routes
  | resourceNotFound
  | sequelizeErrors
  | errorFormatter

/-- Lines 41-45: the cookie options of the anti-forgery stage. -/
def csrfCookie (environment : JSVal) : CookieOptions where
  secure := .bool (isProduction environment)
  sameSite := JSVal.and (.bool (isProduction environment)) (.str "Lax")
  httpOnly := .bool true

/-- Lines 19-50 and 54-89: the stages in registration order. -/
def app (environment : JSVal) : List Middleware :=
  [.morgan "dev", .cookieParser, .expressJson]
    ++ (if !isProduction environment then [.cors] else [])
    ++ [.crossOriginResourcePolicy "cross-origin",
        .csurf (csrfCookie environment),
        .routes, .resourceNotFound, .sequelizeErrors, .errorFormatter]

/-- The same-site restriction a cookie option value stands for, as the cookie
serializer behind `csurf` reads it: a falsy value means no restriction, `true`
means strict, a string is taken case-insensitively and has to be lax, strict
or none, and anything else is refused. -/
def sameSiteRestriction (v : JSVal) : Except JSThrow (Option String) :=
  if !v.truthy then .ok none
  else
    match v with
    | .bool _ => .ok (some "strict")
    | .str s =>
      let lower := String.mk (s.data.map Char.toLower)
      if lower = "lax" ∨ lower = "strict" ∨ lower = "none" then .ok (some lower)
      else .error (.typeError "option sameSite is invalid")
    | _ => .error (.typeError "option sameSite is invalid")

/-- Lines 54-60: the error built by the resource-not-found middleware.
`new Error(msg)` yields an object with `message` and a runtime-provided
`stack`; the middleware then sets `title`, `errors` and `status`. -/
def resourceNotFound (stack : String) : ErrObj :=
  let err : ErrObj :=
    { isValidationError := false,
      props := [("message", .str "The requested resource couldn't be found."),
                ("stack", .str stack)] }
  let err := err.set "title" (.str "Resource Not Found")
  let err := err.set "errors" (.arr [.str "The requested resource couldn't be found"])
  let err := err.set "status" (.num 404)
  err

/-- Lines 67-73: the Sequelize error middleware.  The result is the error it
passes to `next`, or what it throws. -/
def sequelizeErrors (err : ErrObj) : Except JSThrow ErrObj :=
  if err.isValidationError then
    match err.get "errors" with
    | .arr es =>
      match arrayMap readMessage es with
      | .error t => .error t
      | .ok msgs => .ok ((err.set "errors" (.arr msgs)).set "title" (.str "Validation error"))
    | .undefined => .error (.typeError "Cannot read properties of undefined (reading map)")
    | .null => .error (.typeError "Cannot read properties of null (reading map)")
    | _ => .error (.typeError "err.errors.map is not a function")
  else
    .ok err

/-- What the error formatter does to the response: the status code it sets,
the error it logs, and the object it hands to `res.json`. -/
structure Response where
  status : JSVal
  logged : ErrObj
  body : List (String × JSVal)

/-- Lines 80-89: the error formatter. -/
def errorFormatter (environment : JSVal) (err : ErrObj) : Response where
  status := JSVal.or (err.get "status") (.num 500)
  logged := err
  body :=
    [("title", JSVal.or (err.get "title") (.str "Server Error")),
     ("message", err.get "message"),
     ("errors", err.get "errors"),
     ("stack", if isProduction environment then .null else err.get "stack")]

/-- The members of the JSON text `res.json` sends: `JSON.stringify` leaves
out every property whose value is `undefined`. -/
def jsonMembers (body : List (String × JSVal)) : List (String × JSVal) :=
  body.filter (fun p => !p.2.isUndefined)

/-- A field of the object handed to `res.json`. -/
def Response.field (r : Response) (k : String) : JSVal := lookupProp k r.body

/-- The error object a thrown value arrives as at the next error handler: a
TypeError with its message and its stack.  The stack is represented by its
first line; the frames after it depend on the runtime. -/
def thrownError : JSThrow → ErrObj
  | .typeError msg =>
    { isValidationError := false,
      props := [("message", .str msg), ("stack", .str ("TypeError: " ++ msg))] }

/-- The error chain of lines 67-89: the Sequelize error middleware, then the
error formatter.  An exception thrown by the first is forwarded by the
framework to the second in place of the original error. -/
def handleError (environment : JSVal) (err : ErrObj) : Response :=
  match sequelizeErrors err with
  | .ok err' => errorFormatter environment err'
  | .error t => errorFormatter environment (thrownError t)

/-- A request no route answers: the resource-not-found middleware runs and
its error goes down the error chain. -/
def handleUnmatched (environment : JSVal) (stack : String) : Response :=
  handleError environment (resourceNotFound stack)

/-! ## backend/db/seeders/20220526172252-demo-user.js -/

/-- A row of the Users table, with the columns the seeder writes. -/
structure UserRow where
  email : String
  username : String
  hashedPassword : String
  deriving DecidableEq, Repr

/-- The Users table as a collection of rows. -/
abbrev UsersTable := List UserRow

/-- A failure reported by the database. -/
inductive DbError where
  | uniqueViolation
  deriving DecidableEq, Repr

/-- Whether inserting `rows` into `table` would repeat a username. -/
def usernameConflict (table : UsersTable) : List UserRow → Bool
  | [] => false
  | r :: rest =>
    (table.map UserRow.username).contains r.username
      || (rest.map UserRow.username).contains r.username
      || usernameConflict table rest

/-- Modelled from the spec: the schema of the Users table is not among the
sources.  The spec says that seeding twice without reverting raises a
uniqueness conflict; `uniqueUsername` says whether the table carries that
constraint.  `queryInterface.bulkInsert` is one INSERT statement: it adds all
the rows, or fails and adds none. -/
def bulkInsert (uniqueUsername : Bool) (table : UsersTable) (rows : List UserRow) :
    Except DbError UsersTable :=
  if uniqueUsername && usernameConflict table rows then .error .uniqueViolation
  else .ok (table ++ rows)

/-- The call `queryInterface.bulkDelete` with the condition
`username: { [Op.in]: names }`: the rows whose username is one of `names`
are removed, the others stay. -/
def bulkDeleteUsernameIn (table : UsersTable) (names : List String) : UsersTable :=
  table.filter (fun r => !names.contains r.username)

/-- Lines 6-17: the rows `up` inserts.  The two bcrypt digests are salted at
random and are parameters. -/
def demoUsers (hash1 hash2 : String) : List UserRow :=
  [{ email := "demo@user.demo", username := "Demo", hashedPassword := hash1 },
   { email := "user1@user.com", username := "FakeUser1", hashedPassword := hash2 }]

/-- Lines 5-18: `up`. -/
def up (uniqueUsername : Bool) (hash1 hash2 : String) (table : UsersTable) :
    Except DbError UsersTable :=
  bulkInsert uniqueUsername table (demoUsers hash1 hash2)

/-- Lines 20-25: `down`. -/
def down (table : UsersTable) : UsersTable :=
  bulkDeleteUsernameIn table ["Demo", "FakeUser1"]

/-- The table after running `up`: the new table, or the old one when the
insert was refused. -/
def tableAfterUp (uniqueUsername : Bool) (hash1 hash2 : String) (table : UsersTable) :
    UsersTable :=
  match up uniqueUsername hash1 hash2 table with
  | .ok table' => table'
  | .error _ => table

/-! ## frontend/src/components/Bookings/index.js -/

/-- Primitive values, as found in the fields of the store.  Numbers are the
integer-valued ones. -/
inductive JSPrim where
  | undefined
  | null
  | bool (b : Bool)
  | num (n : Int)
  | str (s : String)
  deriving DecidableEq, Repr

/-- ToNumber on a boolean, the identity on the other primitives. -/
def boolToNumber : JSPrim → JSPrim
  | .bool b => .num (if b then 1 else 0)
  | p => p

/-- Abstract equality, `x == y`, on primitives.  `strToNum` is the conversion
of a string to a number, giving `none` when the result is not an integer. -/
def looseEq (strToNum : String → Option Int) (x y : JSPrim) : Bool :=
  match x, y with
  | .undefined, .undefined => true
  | .undefined, .null => true
  | .null, .undefined => true
  | .null, .null => true
  | _, _ =>
    match boolToNumber x, boolToNumber y with
    | .num a, .num b => a == b
    | .str a, .str b => a == b
    | .num a, .str b => strToNum b == some a
    | .str a, .num b => strToNum a == some b
    | _, _ => false

/-- An object of the store, as its properties. -/
abbrev StoreObj := List (String × JSPrim)

/-- Reading `o.k`; a missing property reads as `undefined`. -/
def readProp (k : String) : StoreObj → JSPrim
  | [] => .undefined
  | (k', v) :: rest => if k' = k then v else readProp k rest

/-- The part of the Redux state the component selects: the bookings slice,
as its entries in enumeration order (an entry may hold null or undefined,
here `none`), and `session.user` (null, here `none`, when nobody is logged
in). -/
structure State where
  bookings : List (String × Option StoreObj)
  sessionUser : Option StoreObj

/-- The values of `Object.values(o)`. -/
def objectValues {α : Type} (o : List (String × α)) : List α := o.map Prod.snd

/-- The `Booking` child element the component returns for one booking. -/
structure BookingElement where
  key : Nat
  checkIn : JSPrim
  checkOut : JSPrim
  userId : JSPrim
  totalCost : JSPrim
  totalGuests : JSPrim
  id : JSPrim
  campsiteId : JSPrim
  deriving DecidableEq, Repr

/-- Lines 29-38: the element built for `booking` at index `i`. -/
def bookingElement (i : Nat) (booking : StoreObj) : BookingElement where
  key := i
  checkIn := readProp "checkIn" booking
  checkOut := readProp "checkOut" booking
  userId := readProp "userId" booking
  totalCost := readProp "totalCost" booking
  totalGuests := readProp "totalGuests" booking
  id := readProp "id" booking
  campsiteId := readProp "campsiteId" booking

/-- Line 18: `booking?.userId`. -/
def optionalUserId : Option StoreObj → JSPrim
  | none => .undefined
  | some booking => readProp "userId" booking

/-- Lines 28-39: `bookings.map((booking, i) => ...)`, from index `i` on.
Reading a property of a null or undefined entry throws. -/
def renderFrom : Nat → List (Option StoreObj) → Except JSThrow (List BookingElement)
  | _, [] => .ok []
  | _, none :: _ => .error (.typeError "Cannot read properties of undefined (reading checkIn)")
  | i, some booking :: rest =>
    match renderFrom (i + 1) rest with
    | .error t => .error t
    | .ok els => .ok (bookingElement i booking :: els)

/-- Lines 8-43: the children of the container the component returns. -/
def Bookings (strToNum : String → Option Int) (state : State) :
    Except JSThrow (List BookingElement) :=
  match state.sessionUser with
  | none => .error (.typeError "Cannot read properties of null (reading id)")
  | some user =>
    let userId := readProp "id" user
    let totalBookings := objectValues state.bookings
    let bookings := totalBookings.filter
      (fun booking => looseEq strToNum (optionalUserId booking) userId)
    renderFrom 0 bookings

/-! ## Concrete inputs -/

/-- An error object as `new Error("boom")` makes it, with its stack. -/
def genericError : ErrObj :=
  { isValidationError := false,
    props := [("message", .str "boom"), ("stack", .str "Error: boom at app.js:1:1")] }

/-- An error object whose status is 0 and whose title is the empty string. -/
def zeroStatusError : ErrObj :=
  { isValidationError := false,
    props := [("message", .str "boom"), ("status", .num 0), ("title", .str "")] }

/-- A Sequelize validation error as the ORM raises it for two field
violations: a message, a stack, the violation items, and no status. -/
def twoViolations : ErrObj :=
  { isValidationError := true,
    props := [("message", .str "Validation error"),
              ("stack", .str "SequelizeValidationError at model.js:1:1"),
              ("errors", .arr [.obj [("message", .str "email must be unique"),
                                     ("path", .str "email")],
                               .obj [("message", .str "username must be unique"),
                                     ("path", .str "username")]])] }

/-- The Users table right after a first seeding: it holds the two demo rows. -/
def seededTable : UsersTable := demoUsers "h1" "h2"

/-- A Users table with one ordinary user. -/
def tableWithCamper : UsersTable :=
  [{ email := "camper@example.com", username := "Camper", hashedPassword := "h0" }]

/-- The store of the scenario: bookings 1 and 2, of users 7 and 9, and the
session of user 7. -/
def scenarioState : State :=
  { bookings := [("1", some [("id", .num 1), ("userId", .num 7)]),
                 ("2", some [("id", .num 2), ("userId", .num 9)])],
    sessionUser := some [("id", .num 7)] }

/-! ## Properties of the property lists -/

theorem lookupProp_assignProp_same (k : String) (v : JSVal) (l : List (String × JSVal)) :
    lookupProp k (assignProp k v l) = v := by
  induction l with
  | nil => simp [assignProp, lookupProp]
  | cons p rest ih =>
    obtain ⟨k', v'⟩ := p
    by_cases h : k' = k
    · simp [assignProp, lookupProp, h]
    · simp [assignProp, lookupProp, h, ih]

theorem lookupProp_assignProp_other (k k' : String) (v : JSVal) (l : List (String × JSVal))
    (h : k ≠ k') : lookupProp k' (assignProp k v l) = lookupProp k' l := by
  induction l with
  | nil => simp [assignProp, lookupProp, h]
  | cons p rest ih =>
    obtain ⟨k0, v0⟩ := p
    by_cases h0 : k0 = k
    · subst h0
      simp [assignProp, lookupProp, h]
    · simp [assignProp, lookupProp, h0, ih]

theorem JSVal.or_isUndefined (a b : JSVal) (hb : b.isUndefined = false) :
    (JSVal.or a b).isUndefined = false := by
  unfold JSVal.or
  split
  · rename_i h
    cases a <;> simp_all [JSVal.truthy, JSVal.isUndefined]
  · exact hb

theorem JSVal.isUndefined_of_isString (a : JSVal) (h : a.isString = true) :
    a.isUndefined = false := by
  cases a <;> simp_all [JSVal.isString, JSVal.isUndefined]

theorem ErrObj.get_set_same (err : ErrObj) (k : String) (v : JSVal) :
    (err.set k v).get k = v :=
  lookupProp_assignProp_same k v err.props

theorem ErrObj.get_set_other (err : ErrObj) (k k' : String) (v : JSVal) (h : k ≠ k') :
    (err.set k v).get k' = err.get k' :=
  lookupProp_assignProp_other k k' v err.props h

theorem arrayMap_readMessage_objects (vs : List (List (String × JSVal))) :
    arrayMap readMessage (vs.map JSVal.obj) = .ok (vs.map (lookupProp "message")) := by
  induction vs with
  | nil => rfl
  | cons v rest ih => simp [arrayMap, readMessage, ih]

theorem sequelizeErrors_other (err : ErrObj) (h : err.isValidationError = false) :
    sequelizeErrors err = .ok err := by
  simp [sequelizeErrors, h]

theorem sequelizeErrors_validation (err : ErrObj) (vs : List (List (String × JSVal)))
    (hv : err.isValidationError = true)
    (he : err.get "errors" = .arr (vs.map JSVal.obj)) :
    sequelizeErrors err =
      .ok ((err.set "errors" (.arr (vs.map (lookupProp "message")))).set "title"
        (.str "Validation error")) := by
  simp [sequelizeErrors, hv, he, arrayMap_readMessage_objects]

/-! ## The error pipeline -/

/-- C1: a request no route answers gets, in every deployment mode, status 404,
title "Resource Not Found" and the one-element errors list; the Sequelize error
middleware forwards the not-found error as it is, and all three fields are
members of the JSON text. -/
theorem unmatched_request_response (environment : JSVal) (stack : String) :
    sequelizeErrors (resourceNotFound stack) = .ok (resourceNotFound stack) ∧
    (handleUnmatched environment stack).status = .num 404 ∧
    (handleUnmatched environment stack).field "title" = .str "Resource Not Found" ∧
    (handleUnmatched environment stack).field "errors"
      = .arr [.str "The requested resource couldn't be found"] ∧
    ("title", JSVal.str "Resource Not Found")
      ∈ jsonMembers (handleUnmatched environment stack).body ∧
    ("errors", JSVal.arr [.str "The requested resource couldn't be found"])
      ∈ jsonMembers (handleUnmatched environment stack).body := by
  refine ⟨rfl, rfl, rfl, rfl, ?_, ?_⟩ <;>
    simp [handleUnmatched, handleError, sequelizeErrors, resourceNotFound, errorFormatter,
      jsonMembers, ErrObj.set, ErrObj.get, assignProp, lookupProp, JSVal.or, JSVal.truthy,
      JSVal.isUndefined]

/-- C2, as stated, fails: an error carrying status 0 and title "" has both
fields, yet the response status is 500 and the body title is "Server Error",
not the error's own. -/
theorem errorFormatter_falsy_fields_replaced :
    (zeroStatusError.get "status").isUndefined = false ∧
    (zeroStatusError.get "title").isUndefined = false ∧
    (errorFormatter (.str "development") zeroStatusError).status = .num 500 ∧
    (errorFormatter (.str "development") zeroStatusError).field "title"
      = .str "Server Error" ∧
    ¬ ((errorFormatter (.str "development") zeroStatusError).status
        = zeroStatusError.get "status") ∧
    ¬ ((errorFormatter (.str "development") zeroStatusError).field "title"
        = zeroStatusError.get "title") := by
  refine ⟨rfl, rfl, rfl, rfl, ?_, ?_⟩ <;>
    simp [errorFormatter, zeroStatusError, Response.field, ErrObj.get, lookupProp, JSVal.or,
      JSVal.truthy]

/-- C2, amended: the response status is the error's status when that is
truthy and 500 otherwise (so 500 when the error has none); the body title is
the error's title when that is truthy and "Server Error" otherwise; message
and errors are the error's own, unchanged. -/
theorem errorFormatter_fields (environment : JSVal) (err : ErrObj) :
    (errorFormatter environment err).status
      = (if (err.get "status").truthy then err.get "status" else .num 500) ∧
    (errorFormatter environment err).field "title"
      = (if (err.get "title").truthy then err.get "title" else .str "Server Error") ∧
    ((err.get "status").isUndefined = true →
      (errorFormatter environment err).status = .num 500) ∧
    ((err.get "title").isUndefined = true →
      (errorFormatter environment err).field "title" = .str "Server Error") ∧
    (errorFormatter environment err).field "message" = err.get "message" ∧
    (errorFormatter environment err).field "errors" = err.get "errors" := by
  refine ⟨rfl, ?_, ?_, ?_, ?_, ?_⟩
  · simp [errorFormatter, Response.field, lookupProp, JSVal.or]
  · intro h
    cases hs : err.get "status" <;> simp_all [errorFormatter, JSVal.or, JSVal.truthy,
      JSVal.isUndefined]
  · intro h
    cases hs : err.get "title" <;> simp_all [errorFormatter, Response.field, lookupProp,
      JSVal.or, JSVal.truthy, JSVal.isUndefined]
  · simp [errorFormatter, Response.field, lookupProp]
  · simp [errorFormatter, Response.field, lookupProp]

/-- The error formatter applied at a status-less error, in development. -/
theorem errorFormatter_fields_witness :
    (genericError.get "status").isUndefined = true ∧
    (errorFormatter (.str "development") genericError).status = .num 500 :=
  ⟨rfl, (errorFormatter_fields (.str "development") genericError).2.2.1 rfl⟩

/-- C3: in production the stack field of the body is null for every error; in
every other mode, for every error carrying a string stack, it is that string,
which is not null. -/
theorem stack_suppressed_only_in_production (environment : JSVal) (err : ErrObj) :
    (isProduction environment = true →
      (errorFormatter environment err).field "stack" = .null) ∧
    (isProduction environment = false → ∀ s : String, err.get "stack" = .str s →
      (errorFormatter environment err).field "stack" = .str s ∧
      (errorFormatter environment err).field "stack" ≠ .null) := by
  constructor
  · intro h
    simp [errorFormatter, Response.field, lookupProp, h]
  · intro h s hs
    simp [errorFormatter, Response.field, lookupProp, h, hs]

/-- C3 at concrete inputs: production hides the stack, the test mode shows it. -/
theorem stack_suppressed_only_in_production_witness :
    (errorFormatter (.str "production") genericError).field "stack" = .null ∧
    (errorFormatter (.str "test") genericError).field "stack"
      = .str "Error: boom at app.js:1:1" :=
  ⟨(stack_suppressed_only_in_production (.str "production") genericError).1 (by decide),
   ((stack_suppressed_only_in_production (.str "test") genericError).2 (by decide)
      "Error: boom at app.js:1:1" rfl).1⟩

/-- C4: at mode test, which is neither production nor development, and an
error carrying a stack, the error formatter puts the error's stack in the
body, where the claim and the comment above the formatter (the stack trace is
included if the environment is in development) call for null. -/
theorem test_mode_shows_stack :
    isProduction (.str "test") = false ∧
    genericError.get "stack" = .str "Error: boom at app.js:1:1" ∧
    (errorFormatter (.str "test") genericError).field "stack"
      = .str "Error: boom at app.js:1:1" ∧
    ¬ ((errorFormatter (.str "test") genericError).field "stack" = .null) := by
  refine ⟨by decide, rfl, rfl, ?_⟩
  simp [errorFormatter, genericError, Response.field, ErrObj.get, lookupProp, isProduction]

/-- What line 87 computes in each mode: null in production, the stack of the
error in every other mode. -/
theorem stack_field_by_mode (environment : JSVal) (err : ErrObj) :
    (errorFormatter environment err).field "stack"
      = (if isProduction environment then .null else err.get "stack") ∧
    (errorFormatter (.str "production") err).field "stack" = .null ∧
    (errorFormatter (.str "development") err).field "stack" = err.get "stack" := by
  refine ⟨?_, ?_, ?_⟩ <;>
    simp [errorFormatter, Response.field, lookupProp, isProduction]

/-- C5: for a validation error whose field violations are the objects `vs`,
the Sequelize error middleware does not throw and forwards the error with
title "Validation error" and with errors the messages of `vs` in the same
order (as many as there are violations), every other property, status and
message among them, being as before; any other error is forwarded as it is. -/
theorem sequelizeErrors_spec (err : ErrObj) :
    (∀ vs : List (List (String × JSVal)),
      err.isValidationError = true → err.get "errors" = .arr (vs.map JSVal.obj) →
      ∃ err' : ErrObj, sequelizeErrors err = .ok err' ∧
        err'.get "title" = .str "Validation error" ∧
        err'.get "errors" = .arr (vs.map (lookupProp "message")) ∧
        (vs.map (lookupProp "message")).length = vs.length ∧
        err'.get "status" = err.get "status" ∧
        err'.get "message" = err.get "message" ∧
        (∀ k : String, k ≠ "errors" → k ≠ "title" → err'.get k = err.get k) ∧
        err'.isValidationError = true) ∧
    (err.isValidationError = false → sequelizeErrors err = .ok err) := by
  constructor
  · intro vs hv he
    have other : ∀ k : String, k ≠ "errors" → k ≠ "title" →
        ((err.set "errors" (.arr (vs.map (lookupProp "message")))).set "title"
          (.str "Validation error")).get k = err.get k := by
      intro k h1 h2
      rw [ErrObj.get_set_other _ _ _ _ (Ne.symm h2), ErrObj.get_set_other _ _ _ _ (Ne.symm h1)]
    refine ⟨_, sequelizeErrors_validation err vs hv he, ErrObj.get_set_same _ _ _, ?_,
      by simp, other "status" (by decide) (by decide), other "message" (by decide) (by decide),
      other, ?_⟩
    · rw [ErrObj.get_set_other _ _ _ _ (by decide), ErrObj.get_set_same]
    · simpa [ErrObj.set] using hv
  · exact sequelizeErrors_other err

/-- C5 at a validation error with two violations and at a generic error. -/
theorem sequelizeErrors_spec_witness :
    (∃ err' : ErrObj, sequelizeErrors twoViolations = .ok err' ∧
      err'.get "title" = .str "Validation error" ∧
      err'.get "errors"
        = .arr [.str "email must be unique", .str "username must be unique"]) ∧
    sequelizeErrors genericError = .ok genericError := by
  refine ⟨?_, (sequelizeErrors_spec genericError).2 rfl⟩
  obtain ⟨err', h1, h2, h3, -⟩ := (sequelizeErrors_spec twoViolations).1
    [[("message", .str "email must be unique"), ("path", .str "email")],
     [("message", .str "username must be unique"), ("path", .str "username")]] rfl rfl
  exact ⟨err', h1, h2, h3⟩

/-- C6, as stated, fails: for a generic error with no errors field the object
handed to `res.json` has errors undefined, neither an array of strings nor
null, and the JSON text has the three members title, message and stack. -/
theorem generic_error_body_lacks_errors :
    (errorFormatter (.str "development") genericError).field "errors" = .undefined ∧
    ((errorFormatter (.str "development") genericError).field "errors").isStringArray = false ∧
    ((errorFormatter (.str "development") genericError).field "errors").isNull = false ∧
    (jsonMembers (errorFormatter (.str "development") genericError).body).map Prod.fst
      = ["title", "message", "stack"] ∧
    ¬ ((jsonMembers (errorFormatter (.str "development") genericError).body).map Prod.fst
      = ["title", "message", "errors", "stack"]) := by
  refine ⟨rfl, rfl, rfl, rfl, ?_⟩
  simp [errorFormatter, genericError, jsonMembers, ErrObj.get, lookupProp, JSVal.or,
    JSVal.truthy, JSVal.isUndefined, isProduction]

/-- C6, amended: in every mode and for every error, the object handed to
`res.json` has exactly the keys title, message, errors and stack, and the
JSON text has exactly those of them whose value is not undefined.  Title is
always a member: it is the title of the error when that is truthy and
"Server Error" otherwise.  Message and errors are the values the error
carries, and stack is null in production and the stack the error carries
otherwise.  When the error has no errors field, errors is undefined and the
JSON text has no errors member.  When the title of the error is a string or
falsy, its message a string, its errors an array of strings or null and its
stack a string, the JSON text has all four members, with title and message
strings, errors an array of strings or null, and stack a string or null. -/
theorem errorFormatter_body_shape (environment : JSVal) (err : ErrObj) :
    (errorFormatter environment err).body.map Prod.fst
      = ["title", "message", "errors", "stack"] ∧
    (∀ p : String × JSVal, p ∈ jsonMembers (errorFormatter environment err).body ↔
      p ∈ (errorFormatter environment err).body ∧ p.2.isUndefined = false) ∧
    (errorFormatter environment err).field "title"
      = (if (err.get "title").truthy then err.get "title" else .str "Server Error") ∧
    "title" ∈ (jsonMembers (errorFormatter environment err).body).map Prod.fst ∧
    (errorFormatter environment err).field "message" = err.get "message" ∧
    (errorFormatter environment err).field "errors" = err.get "errors" ∧
    (errorFormatter environment err).field "stack"
      = (if isProduction environment then .null else err.get "stack") ∧
    ((err.get "errors").isUndefined = true →
      ((errorFormatter environment err).field "errors").isUndefined = true ∧
      "errors" ∉ (jsonMembers (errorFormatter environment err).body).map Prod.fst) ∧
    (((err.get "title").isString = true ∨ (err.get "title").truthy = false) →
      (err.get "message").isString = true →
      ((err.get "errors").isStringArray = true ∨ (err.get "errors").isNull = true) →
      (err.get "stack").isString = true →
      (jsonMembers (errorFormatter environment err).body).map Prod.fst
        = ["title", "message", "errors", "stack"] ∧
      jsonMembers (errorFormatter environment err).body = (errorFormatter environment err).body ∧
      ((errorFormatter environment err).field "title").isString = true ∧
      ((errorFormatter environment err).field "message").isString = true ∧
      (((errorFormatter environment err).field "errors").isStringArray = true ∨
        ((errorFormatter environment err).field "errors").isNull = true) ∧
      (((errorFormatter environment err).field "stack").isString = true ∨
        ((errorFormatter environment err).field "stack").isNull = true)) := by
  have htitle : (JSVal.or (err.get "title") (.str "Server Error")).isUndefined = false :=
    JSVal.or_isUndefined _ _ rfl
  refine ⟨rfl, ?_, ?_, ?_, ?_, ?_, ?_, ?_, ?_⟩
  · intro p
    simp [jsonMembers, List.mem_filter]
  · simp [errorFormatter, Response.field, lookupProp, JSVal.or]
  · simp [errorFormatter, jsonMembers, List.mem_filter, htitle]
  · simp [errorFormatter, Response.field, lookupProp]
  · simp [errorFormatter, Response.field, lookupProp]
  · simp [errorFormatter, Response.field, lookupProp]
  · intro h
    constructor
    · simpa [errorFormatter, Response.field, lookupProp] using h
    · simp [errorFormatter, jsonMembers, List.mem_filter, h]
  · intro ht hm he hs
    have ht' : (JSVal.or (err.get "title") (.str "Server Error")).isString = true := by
      unfold JSVal.or
      rcases ht with ht | ht
      · split
        · exact ht
        · rfl
      · simp [ht, JSVal.isString]
    have hm' : (err.get "message").isUndefined = false := JSVal.isUndefined_of_isString _ hm
    have he' : (err.get "errors").isUndefined = false := by
      rcases he with he | he
      · cases hc : err.get "errors" <;> simp_all [JSVal.isStringArray, JSVal.isUndefined]
      · cases hc : err.get "errors" <;> simp_all [JSVal.isNull, JSVal.isUndefined]
    have hs' : (err.get "stack").isUndefined = false := JSVal.isUndefined_of_isString _ hs
    have hst : (if isProduction environment then JSVal.null else err.get "stack").isUndefined
        = false := by
      split
      · rfl
      · exact hs'
    have hall : jsonMembers (errorFormatter environment err).body
        = (errorFormatter environment err).body := by
      simp [errorFormatter, jsonMembers, List.filter_cons, htitle, hm', he', hst]
    refine ⟨?_, hall, ?_, ?_, ?_, ?_⟩
    · rw [hall]
      rfl
    · simpa [errorFormatter, Response.field, lookupProp] using ht'
    · simpa [errorFormatter, Response.field, lookupProp] using hm
    · simpa [errorFormatter, Response.field, lookupProp] using he
    · cases hp : isProduction environment
      · left
        simpa [errorFormatter, Response.field, lookupProp, hp] using hs
      · right
        simp [errorFormatter, Response.field, lookupProp, hp, JSVal.isNull]

/-- C6 at an error without an errors field and at the not-found error. -/
theorem errorFormatter_body_shape_witness :
    "errors" ∉ (jsonMembers (errorFormatter (.str "test") genericError).body).map Prod.fst ∧
    (jsonMembers (errorFormatter (.str "production")
        (resourceNotFound "Error: at app.js")).body).map Prod.fst
      = ["title", "message", "errors", "stack"] :=
  ⟨((errorFormatter_body_shape (.str "test") genericError).2.2.2.2.2.2.2.1 rfl).2,
   ((errorFormatter_body_shape (.str "production")
      (resourceNotFound "Error: at app.js")).2.2.2.2.2.2.2.2
        (Or.inl rfl) rfl (Or.inl rfl) rfl).1⟩

/-- C7, as stated, fails: a validation error as the ORM raises it carries no
status, the Sequelize error middleware sets none, and the response status is
500, neither 422 nor 400. -/
theorem validation_error_status_500 :
    twoViolations.isValidationError = true ∧
    (twoViolations.get "status").isUndefined = true ∧
    (handleError (.str "production") twoViolations).status = .num 500 ∧
    ¬ ((handleError (.str "production") twoViolations).status = .num 422 ∨
       (handleError (.str "production") twoViolations).status = .num 400) := by
  refine ⟨rfl, rfl, rfl, ?_⟩
  have h : (handleError (.str "production") twoViolations).status = .num 500 := rfl
  rw [h]
  simp

/-- C7, amended: for a validation error with field violations `vs`, the
response status after the Sequelize error middleware and the error formatter
is the error's own status when that is truthy and 500 otherwise, so 500 when
it carries none; for every other error without a status it is 500. -/
theorem handleError_status (environment : JSVal) (err : ErrObj) :
    (∀ vs : List (List (String × JSVal)),
      err.isValidationError = true → err.get "errors" = .arr (vs.map JSVal.obj) →
      (handleError environment err).status
        = (if (err.get "status").truthy then err.get "status" else .num 500) ∧
      ((err.get "status").isUndefined = true →
        (handleError environment err).status = .num 500)) ∧
    (err.isValidationError = false → (err.get "status").isUndefined = true →
      (handleError environment err).status = .num 500) := by
  have undef : ∀ v : JSVal, v.isUndefined = true → JSVal.or v (.num 500) = .num 500 := by
    intro v hv
    cases v <;> simp_all [JSVal.or, JSVal.truthy, JSVal.isUndefined]
  constructor
  · intro vs hv he
    have hst : ((err.set "errors" (.arr (vs.map (lookupProp "message")))).set "title"
        (.str "Validation error")).get "status" = err.get "status" := by
      rw [ErrObj.get_set_other _ _ _ _ (by decide), ErrObj.get_set_other _ _ _ _ (by decide)]
    have hstatus : (handleError environment err).status
        = JSVal.or (err.get "status") (.num 500) := by
      simp only [handleError, sequelizeErrors_validation err vs hv he, errorFormatter, hst]
    refine ⟨?_, ?_⟩
    · rw [hstatus]
      rfl
    · intro hu
      rw [hstatus]
      exact undef _ hu
  · intro hv hu
    simp only [handleError, sequelizeErrors_other err hv, errorFormatter]
    exact undef _ hu

/-- C7 at a validation error with two violations and at a generic error. -/
theorem handleError_status_witness :
    (handleError (.str "development") twoViolations).status = .num 500 ∧
    (handleError (.str "development") genericError).status = .num 500 :=
  ⟨((handleError_status (.str "development") twoViolations).1
      [[("message", .str "email must be unique"), ("path", .str "email")],
       [("message", .str "username must be unique"), ("path", .str "username")]]
      rfl rfl).2 rfl,
   (handleError_status (.str "development") genericError).2 rfl rfl⟩

/-! ## The middleware configuration -/

/-- C8: for every value of the environment, the permissive cross-origin stage
is installed exactly when the mode is not production; the cross-origin
resource policy stage and the anti-forgery stage are always installed; and the
anti-forgery cookie has secure true exactly in production, the same-site
option "Lax" (the lax restriction) exactly in production and `false` (no
restriction) otherwise, and httpOnly true always. -/
theorem app_security_configuration (environment : JSVal) :
    (Middleware.cors ∈ app environment ↔ isProduction environment = false) ∧
    Middleware.crossOriginResourcePolicy "cross-origin" ∈ app environment ∧
    Middleware.csurf (csrfCookie environment) ∈ app environment ∧
    (∀ c : CookieOptions, Middleware.csurf c ∈ app environment → c = csrfCookie environment) ∧
    ((csrfCookie environment).secure = .bool true ↔ isProduction environment = true) ∧
    ((csrfCookie environment).secure = .bool false ↔ isProduction environment = false) ∧
    ((csrfCookie environment).sameSite = .str "Lax" ↔ isProduction environment = true) ∧
    (sameSiteRestriction (csrfCookie environment).sameSite = .ok (some "lax")
      ↔ isProduction environment = true) ∧
    ((csrfCookie environment).sameSite = .bool false ↔ isProduction environment = false) ∧
    (sameSiteRestriction (csrfCookie environment).sameSite = .ok none
      ↔ isProduction environment = false) ∧
    (csrfCookie environment).httpOnly = .bool true := by
  cases hp : isProduction environment <;>
    simp [app, csrfCookie, hp, JSVal.and, JSVal.truthy, sameSiteRestriction]

/-! ## The demo seeder -/

/-- C10, as stated, fails: on a table that already holds the two demo rows
(it was seeded once), seeding and then reverting leaves no row where there
were two, whether the second insert goes through (no uniqueness constraint)
or is refused. -/
theorem seed_then_revert_drops_existing_rows :
    seededTable.length = 2 ∧
    (tableAfterUp false "h3" "h4" seededTable).length = 4 ∧
    (down (tableAfterUp false "h3" "h4" seededTable)).length = 0 ∧
    up true "h3" "h4" seededTable = .error .uniqueViolation ∧
    (down (tableAfterUp true "h3" "h4" seededTable)).length = 0 ∧
    ¬ ((down (tableAfterUp false "h3" "h4" seededTable)).length = seededTable.length) ∧
    ¬ ((down (tableAfterUp true "h3" "h4" seededTable)).length = seededTable.length) := by
  refine ⟨rfl, rfl, rfl, rfl, rfl, ?_, ?_⟩ <;> decide

theorem down_keeps_other_rows (table : UsersTable)
    (h : ∀ r ∈ table, r.username ≠ "Demo" ∧ r.username ≠ "FakeUser1") :
    down table = table := by
  unfold down bulkDeleteUsernameIn
  rw [List.filter_eq_self]
  intro r hr
  have := h r hr
  simp [this.1, this.2]

theorem usernameConflict_demoUsers (hash1 hash2 : String) (table : UsersTable)
    (h : ∀ r ∈ table, r.username ≠ "Demo" ∧ r.username ≠ "FakeUser1") :
    usernameConflict table (demoUsers hash1 hash2) = false := by
  have h1 : ∀ r ∈ table, ¬ r.username = "Demo" := fun r hr => (h r hr).1
  have h2 : ∀ r ∈ table, ¬ r.username = "FakeUser1" := fun r hr => (h r hr).2
  simp only [usernameConflict, demoUsers]
  simp
  exact ⟨h1, h2⟩

/-- C10, amended: for every table holding no row with username Demo or
FakeUser1, `up` succeeds and adds the two demo rows, and `down` after it gives
back the table itself, so the row count is the one before; and for every
table, a second `down` changes nothing. -/
theorem seed_then_revert (uniqueUsername : Bool) (hash1 hash2 : String) (table : UsersTable) :
    ((∀ r ∈ table, r.username ≠ "Demo" ∧ r.username ≠ "FakeUser1") →
      up uniqueUsername hash1 hash2 table = .ok (table ++ demoUsers hash1 hash2) ∧
      (table ++ demoUsers hash1 hash2).length = table.length + 2 ∧
      down (tableAfterUp uniqueUsername hash1 hash2 table) = table ∧
      (down (tableAfterUp uniqueUsername hash1 hash2 table)).length = table.length) ∧
    down (down table) = down table ∧
    down (down (tableAfterUp uniqueUsername hash1 hash2 table))
      = down (tableAfterUp uniqueUsername hash1 hash2 table) := by
  have idem : ∀ t : UsersTable, down (down t) = down t := by
    intro t
    simp [down, bulkDeleteUsernameIn, List.filter_filter]
  refine ⟨?_, idem _, idem _⟩
  intro h
  have hup : up uniqueUsername hash1 hash2 table = .ok (table ++ demoUsers hash1 hash2) := by
    simp [up, bulkInsert, usernameConflict_demoUsers hash1 hash2 table h]
  have hdown : down (tableAfterUp uniqueUsername hash1 hash2 table) = table := by
    simp only [tableAfterUp, hup]
    have hk := down_keeps_other_rows table h
    simp only [down, bulkDeleteUsernameIn] at hk ⊢
    rw [List.filter_append, hk]
    simp [demoUsers]
  exact ⟨hup, by simp [demoUsers], hdown, by rw [hdown]⟩

/-- C10 at a table with one ordinary user, under the uniqueness constraint. -/
theorem seed_then_revert_witness :
    (∀ r ∈ tableWithCamper, r.username ≠ "Demo" ∧ r.username ≠ "FakeUser1") ∧
    down (tableAfterUp true "h1" "h2" tableWithCamper) = tableWithCamper :=
  ⟨by decide, ((seed_then_revert true "h1" "h2" tableWithCamper).1 (by decide)).2.2.1⟩

/-! ## The bookings view -/

theorem renderFrom_bookings (i : Nat) (bs : List StoreObj) :
    renderFrom i (bs.map some)
      = .ok ((bs.enumFrom i).map (fun ib => bookingElement ib.1 ib.2)) := by
  induction bs generalizing i with
  | nil => rfl
  | cons b rest ih => simp [renderFrom, ih, List.enumFrom]

/-- C9: for a store whose bookings slice has the entries `entries`, each a
booking, and whose session user is `user`, the component returns one child
per booking among the values of the slice, in their order, whose userId is
loosely equal to the user's id, and no other; the child carries that
booking's id, userId, checkIn, checkOut, totalCost, totalGuests and
campsiteId.  In the scenario with bookings 1 and 2 of users 7 and 9 and
session user 7, exactly one child is returned, for booking 1. -/
theorem Bookings_renders_user_bookings (strToNum : String → Option Int)
    (entries : List (String × StoreObj)) (user : StoreObj) :
    Bookings strToNum
        { bookings := entries.map (fun e => (e.1, some e.2)), sessionUser := some user }
      = .ok ((((entries.map Prod.snd).filter
            (fun b => looseEq strToNum (readProp "userId" b) (readProp "id" user))).enum).map
          (fun ib => bookingElement ib.1 ib.2)) ∧
    List.Sublist
      ((entries.map Prod.snd).filter
        (fun b => looseEq strToNum (readProp "userId" b) (readProp "id" user)))
      (entries.map Prod.snd) ∧
    (∀ (i : Nat) (b : StoreObj),
      (bookingElement i b).id = readProp "id" b ∧
      (bookingElement i b).userId = readProp "userId" b ∧
      (bookingElement i b).checkIn = readProp "checkIn" b ∧
      (bookingElement i b).checkOut = readProp "checkOut" b ∧
      (bookingElement i b).totalCost = readProp "totalCost" b ∧
      (bookingElement i b).totalGuests = readProp "totalGuests" b ∧
      (bookingElement i b).campsiteId = readProp "campsiteId" b) ∧
    Bookings strToNum scenarioState
      = .ok [bookingElement 0 [("id", .num 1), ("userId", .num 7)]] ∧
    (bookingElement 0 [("id", .num 1), ("userId", .num 7)]).id = .num 1 := by
  refine ⟨?_, List.filter_sublist _, fun i b => ⟨rfl, rfl, rfl, rfl, rfl, rfl, rfl⟩, ?_, rfl⟩
  · have hfilter : (objectValues (entries.map (fun e => (e.1, some e.2)))).filter
          (fun booking => looseEq strToNum (optionalUserId booking) (readProp "id" user))
        = ((entries.map Prod.snd).filter
            (fun b => looseEq strToNum (readProp "userId" b) (readProp "id" user))).map some := by
      have hvals : objectValues (entries.map (fun e => (e.1, some e.2)))
          = (entries.map Prod.snd).map some := by
        simp [objectValues, List.map_map, Function.comp_def]
      rw [hvals, List.filter_map]
      rfl
    simp only [Bookings, hfilter, renderFrom_bookings, List.enum]
  · simp [Bookings, scenarioState, objectValues, optionalUserId, readProp, looseEq,
      boolToNumber, renderFrom]

end BookingApp
